import Mathlib

/-!
Verification development for the OAI 5G AUSF operator charm.

We give a shallow embedding of the charm's relation-data exchange and
reconciliation logic:

* `src/lib/charms/oai_5g_ausf/v0/fiveg_ausf.py` — the provider side
  (`set_ausf_information`, `ausf_data_is_set`) and the requirer side
  (`_on_relation_changed`, the four per-field accessors and availability
  probes);
* `src/src/charm.py` — the charm's reconciliation handler
  (`_on_config_changed`), config push (`_push_config`), pebble-layer update
  (`_update_pebble_layer`) and the advertisement handler
  (`_on_fiveg_ausf_relation_joined`, `_ausf_service_started`).

Relation data bags are app-scoped string-to-string maps, embedded as
association lists where a later `dataSet` shadows earlier entries.  Python
code that raises (`RuntimeError`, `AttributeError`) is embedded in `Except
String`.  The NRF and UDM requirer libraries are vendored in the repository
but their source is not available here; the definitions that stand in for
them are modelled from the spec and marked as such in their doc comments.
-/

namespace AusfOperator

/-- An app-scoped relation data bag: opaque string key to string value map,
embedded as an association list (first match wins on lookup). -/
abbrev RelationData := List (String × String)

/-- Lookup of a key in a relation data bag (`data.get(key, None)` /
`key in data` in Python). -/
def dataGet (d : RelationData) (k : String) : Option String :=
  match d with
  | [] => none
  | (k', v) :: rest => if k' = k then some v else dataGet rest k

/-- Write one key into a relation data bag (one entry of `dict.update`). -/
def dataSet (d : RelationData) (k v : String) : RelationData :=
  (k, v) :: d

/-- `relation.data[app].update(kvs)`: write each pair in order. -/
def dataUpdate (d : RelationData) (kvs : List (String × String)) : RelationData :=
  kvs.foldl (fun acc kv => dataSet acc kv.1 kv.2) d

/-- The four string fields of the AUSF fact published over the `fiveg-ausf`
relation (arguments of `set_ausf_information`). -/
structure AUSFFact where
  ausf_ipv4_address : String
  ausf_fqdn : String
  ausf_port : String
  ausf_api_version : String
deriving DecidableEq, Repr

/-- The four wire keys of an AUSF fact, in the order `set_ausf_information`
writes them. -/
def ausfFactPairs (f : AUSFFact) : List (String × String) :=
  [("ausf_ipv4_address", f.ausf_ipv4_address),
   ("ausf_fqdn", f.ausf_fqdn),
   ("ausf_port", f.ausf_port),
   ("ausf_api_version", f.ausf_api_version)]

/-- The provider's view of the model: the live `fiveg-ausf` relation
instances, keyed by relation id, each carrying the local application's own
databag (`relation.data[self.charm.app]`). -/
structure ProviderModel where
  relations : List (Nat × RelationData)
deriving DecidableEq, Repr

/-- First-match lookup of a relation id in a list of relation instances. -/
def lookupRel (rels : List (Nat × RelationData)) (rid : Nat) : Option RelationData :=
  match rels with
  | [] => none
  | (rid', d) :: rest => if rid' = rid then some d else lookupRel rest rid

/-- `self.model.get_relation(self.relationship_name, relation_id=rid)`. -/
def getRelationById (m : ProviderModel) (rid : Nat) : Option RelationData :=
  lookupRel m.relations rid

/-- Overwrite the local app databag of relation `rid` (the mutation performed
by `relation.data[self.charm.app].update`). -/
def setRelationData (m : ProviderModel) (rid : Nat) (d : RelationData) : ProviderModel :=
  ⟨(rid, d) :: m.relations⟩

/-- `FiveGAUSFProvides.ausf_data_is_set`: raises if the relation does not
exist, otherwise compares all four fields in the local databag against the
candidate fact field by field, returning `false` at the first mismatch. -/
def ausf_data_is_set (m : ProviderModel) (rid : Nat) (f : AUSFFact) :
    Except String Bool :=
  match getRelationById m rid with
  | none => .error "Relation fiveg-ausf not created yet."
  | some d =>
    if dataGet d "ausf_ipv4_address" ≠ some f.ausf_ipv4_address then .ok false
    else if dataGet d "ausf_fqdn" ≠ some f.ausf_fqdn then .ok false
    else if dataGet d "ausf_port" ≠ some f.ausf_port then .ok false
    else if dataGet d "ausf_api_version" ≠ some f.ausf_api_version then .ok false
    else .ok true

/-- `FiveGAUSFProvides.set_ausf_information`: raises `RuntimeError` when the
relation instance does not exist; otherwise, if the four fields already match
(`ausf_data_is_set`), returns without writing (the `Bool` records whether a
write happened); otherwise updates the local databag with all four fields. -/
def set_ausf_information (m : ProviderModel) (f : AUSFFact) (rid : Nat) :
    Except String (ProviderModel × Bool) :=
  match getRelationById m rid with
  | none => .error "Relation fiveg-ausf not created yet."
  | some d =>
    match ausf_data_is_set m rid f with
    | .error e => .error e
    | .ok true => .ok (m, false)
    | .ok false => .ok (setRelationData m rid (dataUpdate d (ausfFactPairs f)), true)

/-- A relation handle as seen from a requirer: `remoteData` is
`relation.data.get(relation.app)` — `none` when there is no remote
application entry to read. -/
structure Relation where
  remoteData : Option RelationData
deriving DecidableEq, Repr

/-- The requirer's view of the model: the result of
`self.model.get_relation(relation_name=self.relationship_name)`. -/
structure RequirerModel where
  relation : Option Relation
deriving DecidableEq, Repr

/-- `FiveGAUSFRequires._on_relation_changed`: the input is the remote
application databag of the changed relation (`none` when `relation.app` is
absent); the output is the `ausf_available` event emitted, if any.  Each of
the four keys is checked for presence in turn; any absent key suppresses the
event. -/
def on_ausf_relation_changed (remoteAppData : Option RelationData) : Option AUSFFact :=
  match remoteAppData with
  | none => none
  | some d =>
    match dataGet d "ausf_ipv4_address" with
    | none => none
    | some a =>
      match dataGet d "ausf_fqdn" with
      | none => none
      | some q =>
        match dataGet d "ausf_port" with
        | none => none
        | some p =>
          match dataGet d "ausf_api_version" with
          | none => none
          | some v => some ⟨a, q, p, v⟩

/-- Shared body of the four requirer accessors: `relation =
model.get_relation(...)` (an absent relation makes `relation.data` raise
`AttributeError`), then `relation.data.get(relation.app)`; a missing or
empty (falsy) remote databag yields `None`, otherwise the field is looked
up with default `None`. -/
def readRemoteField (m : RequirerModel) (key : String) : Except String (Option String) :=
  match m.relation with
  | none => .error "AttributeError: NoneType object has no attribute data"
  | some r =>
    match r.remoteData with
    | none => .ok none
    | some d => if d.isEmpty then .ok none else .ok (dataGet d key)

/-- `FiveGAUSFRequires.ausf_ipv4_address`. -/
def ausf_ipv4_address (m : RequirerModel) : Except String (Option String) :=
  readRemoteField m "ausf_ipv4_address"

/-- `FiveGAUSFRequires.ausf_fqdn`. -/
def ausf_fqdn (m : RequirerModel) : Except String (Option String) :=
  readRemoteField m "ausf_fqdn"

/-- `FiveGAUSFRequires.ausf_port`. -/
def ausf_port (m : RequirerModel) : Except String (Option String) :=
  readRemoteField m "ausf_port"

/-- `FiveGAUSFRequires.ausf_api_version`. -/
def ausf_api_version (m : RequirerModel) : Except String (Option String) :=
  readRemoteField m "ausf_api_version"

/-- Python truthiness of an `Optional[str]`: `None` and the empty string are
falsy. -/
def optStrTruthy (v : Option String) : Bool :=
  match v with
  | none => false
  | some s => !s.isEmpty

/-- Shared body of the four availability probes: `if self.<field>: return
True else: return False` — the truthiness test of the accessor's value,
propagating any accessor error. -/
def fieldAvailable (m : RequirerModel) (key : String) : Except String Bool :=
  match readRemoteField m key with
  | .error e => .error e
  | .ok v => .ok (optStrTruthy v)

/-- `FiveGAUSFRequires.ausf_ipv4_address_available`. -/
def ausf_ipv4_address_available (m : RequirerModel) : Except String Bool :=
  fieldAvailable m "ausf_ipv4_address"

/-- `FiveGAUSFRequires.ausf_fqdn_available`. -/
def ausf_fqdn_available (m : RequirerModel) : Except String Bool :=
  fieldAvailable m "ausf_fqdn"

/-- `FiveGAUSFRequires.ausf_port_available`. -/
def ausf_port_available (m : RequirerModel) : Except String Bool :=
  fieldAvailable m "ausf_port"

/-- `FiveGAUSFRequires.ausf_api_version_available`. -/
def ausf_api_version_available (m : RequirerModel) : Except String Bool :=
  fieldAvailable m "ausf_api_version"

/-- Unit status values set by the charm (`WaitingStatus`, `BlockedStatus`,
`ActiveStatus`). -/
inductive Status where
  | waiting (msg : String)
  | blocked (msg : String)
  | active
deriving DecidableEq, Repr

/-- The template variable bindings passed to `jinja2` by `_push_config`
(the rendered artifact is the external pure renderer applied to exactly
these bindings), plus the charm's fixed config properties. -/
structure ConfigBindings where
  instanceId : String
  pid_directory : String
  ausf_name : String
  sbi_interface_name : String
  sbi_interface_port : String
  sbi_interface_api_version : String
  sbi_interface_http2_port : String
  use_fqdn_dns : String
  use_http2 : String
  register_nrf : String
  udm_ipv4_address : Option String
  udm_port : Option String
  udm_api_version : Option String
  udm_fqdn : Option String
  nrf_ipv4_address : Option String
  nrf_port : Option String
  nrf_api_version : Option String
  nrf_fqdn : Option String
deriving DecidableEq, Repr

/-- Side effects of one reconciliation pass on the workload container. -/
inductive Action where
  | pushConfig (bindings : ConfigBindings)
  | addLayer
  | replan
  | restart (service : String)
deriving DecidableEq, Repr

/-- Outcome of one event handler invocation: the unit status it set, whether
it deferred the event, and the container actions it performed, in order. -/
structure EventResult where
  status : Status
  deferred : Bool
  actions : List Action
deriving DecidableEq, Repr

/-- `_config_instance`. -/
def config_instance : String := "0"

/-- `_config_pid_directory`. -/
def config_pid_directory : String := "/var/run"

/-- `_config_ausf_name`. -/
def config_ausf_name : String := "OAI_AUSF"

/-- `_config_use_fqdn_dns`. -/
def config_use_fqdn_dns : String := "yes"

/-- `_config_register_nrf`. -/
def config_register_nrf : String := "no"

/-- `_config_use_http2`. -/
def config_use_http2 : String := "no"

/-- `_config_sbi_interface_name`. -/
def config_sbi_interface_name : String := "eth0"

/-- `_config_sbi_interface_port`. -/
def config_sbi_interface_port : String := "80"

/-- `_config_sbi_interface_http2_port`. -/
def config_sbi_interface_http2_port : String := "9090"

/-- `_config_sbi_interface_api_version`. -/
def config_sbi_interface_api_version : String := "v1"

/-- The charm's view of the world at one trigger: whether the workload
container's pebble is reachable, and the results of `model.get_relation`
for the `fiveg-nrf` and `fiveg-udm` relations. -/
structure CharmState where
  can_connect : Bool
  nrf_relation : Option Relation
  udm_relation : Option Relation
deriving DecidableEq, Repr

/-- Modelled from the spec: the vendored `FiveGNRFRequires` /
`FiveGUDMRequires` libraries are not among the available sources.  Per
§4.1 a FactReader accessor looks the field's key up in the relationship's
remote store and yields an absent value when the store or key is missing;
this mirrors the in-repository AUSF reader (`readRemoteField`) applied to
the dependency's relation. -/
def depField (rel : Option Relation) (key : String) : Except String (Option String) :=
  readRemoteField ⟨rel⟩ key

/-- Modelled from the spec: §4.1's per-field boolean availability probe for
a dependency field, "recomputed per-call"; mirrors the in-repository AUSF
probe (`fieldAvailable`) applied to the dependency's relation. -/
def depFieldAvailable (rel : Option Relation) (key : String) : Except String Bool :=
  fieldAvailable ⟨rel⟩ key

/-- `_push_config`: renders the template from the charm's config properties
plus all eight dependency accessor values and pushes the result; the pushed
artifact is determined by these bindings.  Accessor errors propagate. -/
def push_config (s : CharmState) : Except String ConfigBindings := do
  let udmIp ← depField s.udm_relation "udm_ipv4_address"
  let udmPort ← depField s.udm_relation "udm_port"
  let udmApi ← depField s.udm_relation "udm_api_version"
  let udmFqdn ← depField s.udm_relation "udm_fqdn"
  let nrfIp ← depField s.nrf_relation "nrf_ipv4_address"
  let nrfPort ← depField s.nrf_relation "nrf_port"
  let nrfApi ← depField s.nrf_relation "nrf_api_version"
  let nrfFqdn ← depField s.nrf_relation "nrf_fqdn"
  pure
    { instanceId := config_instance
      pid_directory := config_pid_directory
      ausf_name := config_ausf_name
      sbi_interface_name := config_sbi_interface_name
      sbi_interface_port := config_sbi_interface_port
      sbi_interface_api_version := config_sbi_interface_api_version
      sbi_interface_http2_port := config_sbi_interface_http2_port
      use_fqdn_dns := config_use_fqdn_dns
      use_http2 := config_use_http2
      register_nrf := config_register_nrf
      udm_ipv4_address := udmIp
      udm_port := udmPort
      udm_api_version := udmApi
      udm_fqdn := udmFqdn
      nrf_ipv4_address := nrfIp
      nrf_port := nrfPort
      nrf_api_version := nrfApi
      nrf_fqdn := nrfFqdn }

/-- `_update_pebble_layer`: add the layer, replan, restart the `ausf`
service. -/
def update_pebble_layer : List Action :=
  [Action.addLayer, Action.replan, Action.restart "ausf"]

/-- `_relation_created`: truthiness of `model.get_relation(name)`. -/
def relation_created (rel : Option Relation) : Bool :=
  rel.isSome

/-- `_on_config_changed` (also bound to the `fiveg-nrf` and `fiveg-udm`
relation-changed triggers): the short-circuit readiness evaluation of the
reconciliation controller.  Unreachable pebble defers; a missing relation
blocks; an unavailable dependency IPv4 address waits; otherwise the config
is pushed, the pebble layer updated and the status set to active. -/
def on_config_changed (s : CharmState) : Except String EventResult :=
  if !s.can_connect then
    .ok ⟨.waiting "Waiting for Pebble in workload container", true, []⟩
  else if !relation_created s.nrf_relation then
    .ok ⟨.blocked "Waiting for relation to NRF to be created", false, []⟩
  else if !relation_created s.udm_relation then
    .ok ⟨.blocked "Waiting for relation to UDM to be created", false, []⟩
  else
    match depFieldAvailable s.nrf_relation "nrf_ipv4_address" with
    | .error e => .error e
    | .ok false =>
      .ok ⟨.waiting "Waiting for NRF IPv4 address to be available in relation data", false, []⟩
    | .ok true =>
      match depFieldAvailable s.udm_relation "udm_ipv4_address" with
      | .error e => .error e
      | .ok false =>
        .ok ⟨.waiting "Waiting for UDM IPv4 address to be available in relation data", false, []⟩
      | .ok true =>
        match push_config s with
        | .error e => .error e
        | .ok b => .ok ⟨.active, false, Action.pushConfig b :: update_pebble_layer⟩

/-- The charm's view at a `fiveg-ausf` relation-joined trigger: leadership,
workload health signals, the app/model identity used to build the local
fact, the provider-side relation instances, and the joining relation's id. -/
structure JoinedState where
  is_leader : Bool
  can_connect : Bool
  /-- `container.get_service("ausf")`: `none` when the lookup raises
  `ModelError` (service not found), otherwise whether the service is
  running. -/
  service_running : Option Bool
  app_name : String
  model_name : String
  provider : ProviderModel
  event_relation_id : Nat
deriving DecidableEq, Repr

/-- `_ausf_service_started`: container reachable, service found, service
running. -/
def ausf_service_started (s : JoinedState) : Bool :=
  if !s.can_connect then false
  else
    match s.service_running with
    | none => false
    | some running => running

/-- The local AUSF fact built by `_on_fiveg_ausf_relation_joined`: loopback
address, the `<app>.<model>.svc.cluster.local` DNS name, and the configured
port and API version. -/
def localAusfFact (s : JoinedState) : AUSFFact :=
  { ausf_ipv4_address := "127.0.0.1"
    ausf_fqdn := s.app_name ++ "." ++ s.model_name ++ ".svc.cluster.local"
    ausf_port := config_sbi_interface_port
    ausf_api_version := config_sbi_interface_api_version }

/-- Outcome of one relation-joined handler invocation: whether the event was
deferred, the provider state afterwards, and the publish call made
(relation id and fact), if any. -/
structure JoinedResult where
  deferred : Bool
  provider : ProviderModel
  published : Option (Nat × AUSFFact)
deriving DecidableEq, Repr

/-- `_on_fiveg_ausf_relation_joined`: non-leaders no-op; if the ausf service
is not started the event is deferred with no writes; otherwise the local
fact is published via `set_ausf_information` to the joining relation
instance only. -/
def on_fiveg_ausf_relation_joined (s : JoinedState) : Except String JoinedResult :=
  if !s.is_leader then .ok ⟨false, s.provider, none⟩
  else if !ausf_service_started s then .ok ⟨true, s.provider, none⟩
  else
    match set_ausf_information s.provider (localAusfFact s) s.event_relation_id with
    | .error e => .error e
    | .ok (m, _) => .ok ⟨false, m, some (s.event_relation_id, localAusfFact s)⟩

/-- Modelled from the spec (§3 completeness invariant): a dependency's
PeerFact is complete iff all four of its wire keys are present in the
remote store.  This is the spec's notion, kept separate from the code's
checks so the two can be compared. -/
def peerFactComplete (rel : Option Relation) (k1 k2 k3 k4 : String) : Bool :=
  match rel with
  | none => false
  | some r =>
    match r.remoteData with
    | none => false
    | some d =>
      (dataGet d k1).isSome && (dataGet d k2).isSome &&
        (dataGet d k3).isSome && (dataGet d k4).isSome

/-- The complete-fact signal for the NRF dependency (spec wording of claim
C1/C2). -/
def nrfFactComplete (s : CharmState) : Bool :=
  peerFactComplete s.nrf_relation "nrf_ipv4_address" "nrf_fqdn" "nrf_port" "nrf_api_version"

/-- The complete-fact signal for the UDM dependency. -/
def udmFactComplete (s : CharmState) : Bool :=
  peerFactComplete s.udm_relation "udm_ipv4_address" "udm_fqdn" "udm_port" "udm_api_version"

/-- The dependency-IPv4-availability signal actually gating the code path,
as a total Boolean: relation present, remote store present and non-empty,
field present and non-empty. -/
def ipv4AvailSignal (rel : Option Relation) (key : String) : Bool :=
  match rel with
  | none => false
  | some r =>
    match r.remoteData with
    | none => false
    | some d => if d.isEmpty then false else optStrTruthy (dataGet d key)

/-- The spec's first-failing-check precedence function (§4.3) over the five
readiness signals, with the fourth and fifth signals taken as the
dependency IPv4-address availability checks the code performs. -/
def firstFailingStatus (reachable nrfRel udmRel nrfAvail udmAvail : Bool) : Status :=
  if !reachable then .waiting "Waiting for Pebble in workload container"
  else if !nrfRel then .blocked "Waiting for relation to NRF to be created"
  else if !udmRel then .blocked "Waiting for relation to UDM to be created"
  else if !nrfAvail then .waiting "Waiting for NRF IPv4 address to be available in relation data"
  else if !udmAvail then .waiting "Waiting for UDM IPv4 address to be available in relation data"
  else .active

/-- The value a dependency accessor yields on an existing relation (total
form of `depField` when the relation is present). -/
def remoteFieldValue (rel : Option Relation) (key : String) : Option String :=
  match rel with
  | none => none
  | some r =>
    match r.remoteData with
    | none => none
    | some d => if d.isEmpty then none else dataGet d key

/-- The template bindings `_push_config` produces from a charm state: the
fixed config properties plus the eight dependency accessor values. -/
def renderedBindings (s : CharmState) : ConfigBindings :=
  { instanceId := config_instance
    pid_directory := config_pid_directory
    ausf_name := config_ausf_name
    sbi_interface_name := config_sbi_interface_name
    sbi_interface_port := config_sbi_interface_port
    sbi_interface_api_version := config_sbi_interface_api_version
    sbi_interface_http2_port := config_sbi_interface_http2_port
    use_fqdn_dns := config_use_fqdn_dns
    use_http2 := config_use_http2
    register_nrf := config_register_nrf
    udm_ipv4_address := remoteFieldValue s.udm_relation "udm_ipv4_address"
    udm_port := remoteFieldValue s.udm_relation "udm_port"
    udm_api_version := remoteFieldValue s.udm_relation "udm_api_version"
    udm_fqdn := remoteFieldValue s.udm_relation "udm_fqdn"
    nrf_ipv4_address := remoteFieldValue s.nrf_relation "nrf_ipv4_address"
    nrf_port := remoteFieldValue s.nrf_relation "nrf_port"
    nrf_api_version := remoteFieldValue s.nrf_relation "nrf_api_version"
    nrf_fqdn := remoteFieldValue s.nrf_relation "nrf_fqdn" }

/-- The status a handler outcome set, `none` when the handler raised. -/
def statusOf (x : Except String EventResult) : Option Status :=
  match x with
  | .error _ => none
  | .ok r => some r.status

/-- The container actions a handler outcome performed (none when it
raised). -/
def actionsOf (x : Except String EventResult) : List Action :=
  match x with
  | .error _ => []
  | .ok r => r.actions

/-- How many restart calls a list of container actions contains. -/
def restartCount (acts : List Action) : Nat :=
  acts.countP fun a =>
    match a with
    | .restart _ => true
    | _ => false

/-- A concrete charm state: pebble reachable, both relations present, the
UDM fact complete, but the NRF remote store carrying only
`nrf_ipv4_address` — the NRF PeerFact is incomplete while its IPv4 address
is available. -/
def stateNrfIncomplete : CharmState :=
  { can_connect := true
    nrf_relation := some ⟨some [("nrf_ipv4_address", "1.2.3.4")]⟩
    udm_relation := some ⟨some [("udm_ipv4_address", "5.6.7.8"),
      ("udm_fqdn", "udm.example.com"), ("udm_port", "82"), ("udm_api_version", "v1")]⟩ }

/-- A concrete charm state in which every readiness check passes: pebble
reachable, both relations present, both remote stores fully populated. -/
def stateAllReady : CharmState :=
  { can_connect := true
    nrf_relation := some ⟨some [("nrf_ipv4_address", "1.2.3.4"),
      ("nrf_fqdn", "nrf.example.com"), ("nrf_port", "81"), ("nrf_api_version", "v1")]⟩
    udm_relation := some ⟨some [("udm_ipv4_address", "5.6.7.8"),
      ("udm_fqdn", "udm.example.com"), ("udm_port", "82"), ("udm_api_version", "v1")]⟩ }

/-! Helper lemmas about the data bags and the provider's write path. -/

@[simp] theorem dataGet_dataSet_same (d : RelationData) (k v : String) :
    dataGet (dataSet d k v) k = some v := by
  simp [dataGet, dataSet]

theorem dataGet_dataSet_other (d : RelationData) (k k' v : String) (h : k ≠ k') :
    dataGet (dataSet d k v) k' = dataGet d k' := by
  simp [dataGet, dataSet, h]

@[simp] theorem getRelationById_setRelationData_same (m : ProviderModel)
    (rid : Nat) (d : RelationData) :
    getRelationById (setRelationData m rid d) rid = some d := by
  simp [getRelationById, setRelationData, lookupRel]

theorem getRelationById_setRelationData_other (m : ProviderModel)
    (rid rid' : Nat) (d : RelationData) (h : rid ≠ rid') :
    getRelationById (setRelationData m rid d) rid' = getRelationById m rid' := by
  simp [getRelationById, setRelationData, lookupRel, h]

theorem dataGet_update_ipv4 (d : RelationData) (f : AUSFFact) :
    dataGet (dataUpdate d (ausfFactPairs f)) "ausf_ipv4_address" = some f.ausf_ipv4_address := by
  simp [dataUpdate, ausfFactPairs, dataSet, dataGet]

theorem dataGet_update_fqdn (d : RelationData) (f : AUSFFact) :
    dataGet (dataUpdate d (ausfFactPairs f)) "ausf_fqdn" = some f.ausf_fqdn := by
  simp [dataUpdate, ausfFactPairs, dataSet, dataGet]

theorem dataGet_update_port (d : RelationData) (f : AUSFFact) :
    dataGet (dataUpdate d (ausfFactPairs f)) "ausf_port" = some f.ausf_port := by
  simp [dataUpdate, ausfFactPairs, dataSet, dataGet]

theorem dataGet_update_api_version (d : RelationData) (f : AUSFFact) :
    dataGet (dataUpdate d (ausfFactPairs f)) "ausf_api_version" = some f.ausf_api_version := by
  simp [dataUpdate, ausfFactPairs, dataSet, dataGet]

/-- After writing a fact's four fields, the field-by-field comparison
succeeds. -/
theorem ausf_data_is_set_after_update (m : ProviderModel) (rid : Nat)
    (d : RelationData) (f : AUSFFact)
    (h : getRelationById m rid = some (dataUpdate d (ausfFactPairs f))) :
    ausf_data_is_set m rid f = .ok true := by
  simp [ausf_data_is_set, h, dataGet_update_ipv4, dataGet_update_fqdn,
    dataGet_update_port, dataGet_update_api_version]

/-- On an existing relation, `ausf_data_is_set` never raises. -/
theorem ausf_data_is_set_ok (m : ProviderModel) (rid : Nat)
    (d : RelationData) (f : AUSFFact) (h : getRelationById m rid = some d) :
    ∃ b, ausf_data_is_set m rid f = .ok b := by
  simp only [ausf_data_is_set, h]
  split
  · exact ⟨false, rfl⟩
  · split
    · exact ⟨false, rfl⟩
    · split
      · exact ⟨false, rfl⟩
      · split
        · exact ⟨false, rfl⟩
        · exact ⟨true, rfl⟩

/-- C3: publishing is idempotent.  On an existing relation instance, the
first `set_ausf_information` call succeeds yielding some state `m₁`, and a
second call with the same fact returns `m₁` unchanged with no write
performed (`false`): the relation data after two calls equals the data
after one, and the second call is a no-op after the field-by-field
comparison. -/
theorem set_ausf_information_idempotent (m : ProviderModel) (rid : Nat)
    (d : RelationData) (f : AUSFFact) (h : getRelationById m rid = some d) :
    ∃ m₁ w₁, set_ausf_information m f rid = .ok (m₁, w₁) ∧
      set_ausf_information m₁ f rid = .ok (m₁, false) := by
  obtain ⟨b, hb⟩ := ausf_data_is_set_ok m rid d f h
  cases b with
  | true =>
    refine ⟨m, false, ?_, ?_⟩ <;> simp [set_ausf_information, h, hb]
  | false =>
    refine ⟨setRelationData m rid (dataUpdate d (ausfFactPairs f)), true, ?_, ?_⟩
    · simp [set_ausf_information, h, hb]
    · have h1 : getRelationById (setRelationData m rid (dataUpdate d (ausfFactPairs f))) rid
          = some (dataUpdate d (ausfFactPairs f)) :=
        getRelationById_setRelationData_same m rid _
      have h2 := ausf_data_is_set_after_update
        (setRelationData m rid (dataUpdate d (ausfFactPairs f))) rid d f h1
      simp [set_ausf_information, h1, h2]

/-- Witness for C3 at a concrete provider state with one empty relation. -/
theorem set_ausf_information_idempotent_witness :
    ∃ m₁ w₁,
      set_ausf_information ⟨[(7, [])]⟩ ⟨"127.0.0.1", "ausf.m.svc.cluster.local", "80", "v1"⟩ 7
        = .ok (m₁, w₁) ∧
      set_ausf_information m₁ ⟨"127.0.0.1", "ausf.m.svc.cluster.local", "80", "v1"⟩ 7
        = .ok (m₁, false) :=
  set_ausf_information_idempotent ⟨[(7, [])]⟩ 7 []
    ⟨"127.0.0.1", "ausf.m.svc.cluster.local", "80", "v1"⟩ (by decide)

/-- C4: publishing to a relation instance that does not exist raises the
`NotYetEstablished` error (`RuntimeError` in the source), which propagates
to the caller; no `.ok` state is produced, so no relation data is
written. -/
theorem set_ausf_information_no_relation (m : ProviderModel) (f : AUSFFact) (rid : Nat)
    (h : getRelationById m rid = none) :
    set_ausf_information m f rid = .error "Relation fiveg-ausf not created yet." ∧
      ∀ m' w, set_ausf_information m f rid ≠ .ok (m', w) := by
  constructor
  · simp [set_ausf_information, h]
  · intro m' w hcontra
    simp [set_ausf_information, h] at hcontra

/-- Witness for C4 on the empty provider model. -/
theorem set_ausf_information_no_relation_witness :
    set_ausf_information ⟨[]⟩ ⟨"127.0.0.1", "ausf.m.svc.cluster.local", "80", "v1"⟩ 0
        = .error "Relation fiveg-ausf not created yet." ∧
      ∀ m' w,
        set_ausf_information ⟨[]⟩ ⟨"127.0.0.1", "ausf.m.svc.cluster.local", "80", "v1"⟩ 0
          ≠ .ok (m', w) :=
  set_ausf_information_no_relation ⟨[]⟩ _ 0 (by decide)

/-- C6: reading a relation's fact is all-or-nothing.  If exactly 3 of the 4
wire keys are present in the remote databag, the relation-changed handler
emits no `ausf_available` event; if all four are present, it emits the one
event carrying exactly those four values.  (The handler emits at most one
event per invocation by construction.) -/
theorem relation_changed_all_or_nothing (d : RelationData) :
    (((dataGet d "ausf_ipv4_address").isSome.toNat + (dataGet d "ausf_fqdn").isSome.toNat +
        (dataGet d "ausf_port").isSome.toNat + (dataGet d "ausf_api_version").isSome.toNat = 3) →
      on_ausf_relation_changed (some d) = none) ∧
    (∀ a q p v, dataGet d "ausf_ipv4_address" = some a → dataGet d "ausf_fqdn" = some q →
      dataGet d "ausf_port" = some p → dataGet d "ausf_api_version" = some v →
      on_ausf_relation_changed (some d) = some ⟨a, q, p, v⟩) := by
  constructor
  · intro h
    cases h1 : dataGet d "ausf_ipv4_address" <;>
      cases h2 : dataGet d "ausf_fqdn" <;>
        cases h3 : dataGet d "ausf_port" <;>
          cases h4 : dataGet d "ausf_api_version" <;>
            simp_all [on_ausf_relation_changed]
  · intro a q p v h1 h2 h3 h4
    simp [on_ausf_relation_changed, h1, h2, h3, h4]

/-- Witness for C6: a store with 3 of 4 keys emits nothing; a full store
emits the event with exactly the stored values. -/
theorem relation_changed_all_or_nothing_witness :
    on_ausf_relation_changed
        (some [("ausf_ipv4_address", "1.2.3.4"), ("ausf_fqdn", "ausf.example.com"),
          ("ausf_port", "80")]) = none ∧
      on_ausf_relation_changed
        (some [("ausf_ipv4_address", "1.2.3.4"), ("ausf_fqdn", "ausf.example.com"),
          ("ausf_port", "80"), ("ausf_api_version", "v1")])
        = some ⟨"1.2.3.4", "ausf.example.com", "80", "v1"⟩ :=
  ⟨(relation_changed_all_or_nothing _).1 (by decide),
    (relation_changed_all_or_nothing _).2 "1.2.3.4" "ausf.example.com" "80" "v1"
      (by decide) (by decide) (by decide) (by decide)⟩

/-- C9: the requirer's per-field accessors and availability probes are total
only when a relation of the relationship name exists.  When
`model.get_relation` yields no relation, every accessor and probe raises
(`AttributeError` on `None`); when a relation exists they all return
without raising, yielding `None` (hence an unavailable probe) when the
remote databag or the field is absent. -/
theorem accessors_raise_iff_no_relation (m : RequirerModel) :
    (m.relation = none →
      ausf_ipv4_address m = .error "AttributeError: NoneType object has no attribute data" ∧
      ausf_fqdn m = .error "AttributeError: NoneType object has no attribute data" ∧
      ausf_port m = .error "AttributeError: NoneType object has no attribute data" ∧
      ausf_api_version m = .error "AttributeError: NoneType object has no attribute data" ∧
      ausf_ipv4_address_available m
        = .error "AttributeError: NoneType object has no attribute data" ∧
      ausf_fqdn_available m = .error "AttributeError: NoneType object has no attribute data" ∧
      ausf_port_available m = .error "AttributeError: NoneType object has no attribute data" ∧
      ausf_api_version_available m
        = .error "AttributeError: NoneType object has no attribute data") ∧
    (∀ r, m.relation = some r →
      (∃ v, ausf_ipv4_address m = .ok v) ∧ (∃ v, ausf_fqdn m = .ok v) ∧
      (∃ v, ausf_port m = .ok v) ∧ (∃ v, ausf_api_version m = .ok v) ∧
      (∃ b, ausf_ipv4_address_available m = .ok b) ∧ (∃ b, ausf_fqdn_available m = .ok b) ∧
      (∃ b, ausf_port_available m = .ok b) ∧ (∃ b, ausf_api_version_available m = .ok b)) ∧
    (∀ r, m.relation = some r → r.remoteData = none →
      ausf_ipv4_address m = .ok none ∧ ausf_fqdn m = .ok none ∧
      ausf_port m = .ok none ∧ ausf_api_version m = .ok none) ∧
    (∀ r d, m.relation = some r → r.remoteData = some d →
      dataGet d "ausf_ipv4_address" = none → ausf_ipv4_address m = .ok none) := by
  refine ⟨?_, ?_, ?_, ?_⟩
  · intro h
    simp [ausf_ipv4_address, ausf_fqdn, ausf_port, ausf_api_version,
      ausf_ipv4_address_available, ausf_fqdn_available, ausf_port_available,
      ausf_api_version_available, readRemoteField, fieldAvailable, h]
  · intro r h
    cases hd : r.remoteData <;>
      simp [ausf_ipv4_address, ausf_fqdn, ausf_port, ausf_api_version,
        ausf_ipv4_address_available, ausf_fqdn_available, ausf_port_available,
        ausf_api_version_available, readRemoteField, fieldAvailable, h, hd] <;>
      split <;> simp
  · intro r h hd
    simp [ausf_ipv4_address, ausf_fqdn, ausf_port, ausf_api_version,
      readRemoteField, h, hd]
  · intro r d h hd hk
    cases he : d.isEmpty <;>
      simp [ausf_ipv4_address, readRemoteField, h, hd, he, hk]

/-- Witness for C9: with no relation the ipv4 accessor raises; with a
relation carrying no remote databag it returns `None`; with a databag
missing the key it returns `None`. -/
theorem accessors_raise_iff_no_relation_witness :
    ausf_ipv4_address ⟨none⟩
        = .error "AttributeError: NoneType object has no attribute data" ∧
      ausf_ipv4_address ⟨some ⟨none⟩⟩ = .ok none ∧
      ausf_ipv4_address ⟨some ⟨some [("ausf_fqdn", "a.example.com")]⟩⟩ = .ok none :=
  ⟨((accessors_raise_iff_no_relation ⟨none⟩).1 rfl).1,
    (((accessors_raise_iff_no_relation ⟨some ⟨none⟩⟩).2.2.1) ⟨none⟩ rfl rfl).1,
    ((accessors_raise_iff_no_relation ⟨some ⟨some [("ausf_fqdn", "a.example.com")]⟩⟩).2.2.2)
      ⟨some [("ausf_fqdn", "a.example.com")]⟩ [("ausf_fqdn", "a.example.com")] rfl rfl
      (by decide)⟩

/-- C10: each availability probe tests Python truthiness of the fetched
value, so a key present with the empty string makes the probe return
`false`, exactly as if the key were absent. -/
theorem probes_empty_string_unavailable (m : RequirerModel) (r : Relation) (d : RelationData)
    (h1 : m.relation = some r) (h2 : r.remoteData = some d) :
    ((dataGet d "ausf_ipv4_address" = some "" ∨ dataGet d "ausf_ipv4_address" = none) →
      ausf_ipv4_address_available m = .ok false) ∧
    ((dataGet d "ausf_fqdn" = some "" ∨ dataGet d "ausf_fqdn" = none) →
      ausf_fqdn_available m = .ok false) ∧
    ((dataGet d "ausf_port" = some "" ∨ dataGet d "ausf_port" = none) →
      ausf_port_available m = .ok false) ∧
    ((dataGet d "ausf_api_version" = some "" ∨ dataGet d "ausf_api_version" = none) →
      ausf_api_version_available m = .ok false) := by
  refine ⟨?_, ?_, ?_, ?_⟩ <;>
    · rintro (hk | hk) <;>
        cases he : d.isEmpty <;>
          simp [ausf_ipv4_address_available, ausf_fqdn_available, ausf_port_available,
            ausf_api_version_available, fieldAvailable, readRemoteField, optStrTruthy,
            h1, h2, he, hk] <;>
          decide

/-- Witness for C10: a store holding the empty string for
`ausf_ipv4_address` yields an unavailable probe. -/
theorem probes_empty_string_unavailable_witness :
    ausf_ipv4_address_available ⟨some ⟨some [("ausf_ipv4_address", "")]⟩⟩ = .ok false :=
  (probes_empty_string_unavailable ⟨some ⟨some [("ausf_ipv4_address", "")]⟩⟩
      ⟨some [("ausf_ipv4_address", "")]⟩ [("ausf_ipv4_address", "")] rfl rfl).1
    (Or.inl (by decide))

/-! Helper lemmas about the reconciliation evaluation. -/

/-- On an existing relation, the dependency availability probe never raises
and computes the total availability signal. -/
theorem depFieldAvailable_some (r : Relation) (key : String) :
    depFieldAvailable (some r) key = .ok (ipv4AvailSignal (some r) key) := by
  cases r with
  | mk rd =>
    cases rd with
    | none =>
      simp [depFieldAvailable, fieldAvailable, readRemoteField, ipv4AvailSignal, optStrTruthy]
    | some d =>
      cases he : d.isEmpty <;>
        simp [depFieldAvailable, fieldAvailable, readRemoteField, ipv4AvailSignal,
          optStrTruthy, he]

/-- On an existing relation, the dependency accessor never raises and
computes the total field value. -/
theorem depField_some (r : Relation) (key : String) :
    depField (some r) key = .ok (remoteFieldValue (some r) key) := by
  cases r with
  | mk rd =>
    cases rd with
    | none => simp [depField, readRemoteField, remoteFieldValue]
    | some d =>
      simp only [depField, readRemoteField, remoteFieldValue]
      split <;> rfl

/-- With both relations present, `_push_config` never raises and its
bindings are `renderedBindings`. -/
theorem push_config_some (s : CharmState) (rn ru : Relation)
    (h2 : s.nrf_relation = some rn) (h3 : s.udm_relation = some ru) :
    push_config s = .ok (renderedBindings s) := by
  simp only [push_config, h2, h3, depField_some, renderedBindings]
  rfl

/-- Full characterization of `_on_config_changed` as a short-circuit chain
over the five readiness signals.  Every claim about the reconciliation
evaluation is derived from this lemma. -/
theorem on_config_changed_characterization (s : CharmState) :
    on_config_changed s =
      if s.can_connect = false then
        .ok ⟨.waiting "Waiting for Pebble in workload container", true, []⟩
      else if s.nrf_relation.isSome = false then
        .ok ⟨.blocked "Waiting for relation to NRF to be created", false, []⟩
      else if s.udm_relation.isSome = false then
        .ok ⟨.blocked "Waiting for relation to UDM to be created", false, []⟩
      else if ipv4AvailSignal s.nrf_relation "nrf_ipv4_address" = false then
        .ok ⟨.waiting "Waiting for NRF IPv4 address to be available in relation data", false, []⟩
      else if ipv4AvailSignal s.udm_relation "udm_ipv4_address" = false then
        .ok ⟨.waiting "Waiting for UDM IPv4 address to be available in relation data", false, []⟩
      else
        .ok ⟨.active, false, Action.pushConfig (renderedBindings s) :: update_pebble_layer⟩ := by
  cases hc : s.can_connect with
  | false => simp [on_config_changed, hc]
  | true =>
    cases hn : s.nrf_relation with
    | none => simp [on_config_changed, relation_created, hc, hn]
    | some rn =>
      cases hu : s.udm_relation with
      | none => simp [on_config_changed, relation_created, hc, hn, hu]
      | some ru =>
        have han := depFieldAvailable_some rn "nrf_ipv4_address"
        have hau := depFieldAvailable_some ru "udm_ipv4_address"
        cases hsn : ipv4AvailSignal (some rn) "nrf_ipv4_address" <;>
          cases hsu : ipv4AvailSignal (some ru) "udm_ipv4_address" <;>
            simp [on_config_changed, relation_created, hc, hn, hu, han, hau, hsn, hsu,
              push_config_some s rn ru hn hu]

/-- Counterexample to C1 as stated: with pebble reachable, both relations
present, the UDM fact complete but the NRF fact incomplete (only its IPv4
address present), the claimed first-failing-check outcome over the
fact-completeness signal would be a Waiting status naming NRF data; the
code instead evaluates only the IPv4-address availability and reaches
Active. -/
theorem config_changed_completeness_counterexample :
    stateNrfIncomplete.can_connect = true ∧
      stateNrfIncomplete.nrf_relation.isSome = true ∧
      stateNrfIncomplete.udm_relation.isSome = true ∧
      nrfFactComplete stateNrfIncomplete = false ∧
      udmFactComplete stateNrfIncomplete = true ∧
      statusOf (on_config_changed stateNrfIncomplete) = some .active := by
  decide

/-- C1 (amended): a config-changed / relation-changed trigger sets the unit
status to the outcome of the first failing check in the fixed order —
unreachable → Waiting, no NRF relation → Blocked, no UDM relation →
Blocked, NRF IPv4 address unavailable → Waiting, UDM IPv4 address
unavailable → Waiting, all pass → Active — where the fourth and fifth
checks are the dependencies' IPv4-address availability, not full
four-field fact completeness; no later check influences the result. -/
theorem config_changed_first_failing_check (s : CharmState) :
    ∃ r, on_config_changed s = .ok r ∧
      r.status = firstFailingStatus s.can_connect s.nrf_relation.isSome s.udm_relation.isSome
        (ipv4AvailSignal s.nrf_relation "nrf_ipv4_address")
        (ipv4AvailSignal s.udm_relation "udm_ipv4_address") := by
  rw [on_config_changed_characterization]
  cases hc : s.can_connect <;>
    cases hn : s.nrf_relation.isSome <;>
      cases hu : s.udm_relation.isSome <;>
        cases hs1 : ipv4AvailSignal s.nrf_relation "nrf_ipv4_address" <;>
          cases hs2 : ipv4AvailSignal s.udm_relation "udm_ipv4_address" <;>
            simp [firstFailingStatus, hc, hn, hu, hs1, hs2]

/-- Counterexample to C2 as stated: at `stateNrfIncomplete` the NRF
PeerFact is incomplete (three of its four fields absent), yet the
evaluation renders, pushes and restarts (non-empty action list with one
restart) and ends Active instead of stopping with a Waiting status. -/
theorem render_gate_counterexample :
    nrfFactComplete stateNrfIncomplete = false ∧
      actionsOf (on_config_changed stateNrfIncomplete) ≠ [] ∧
      restartCount (actionsOf (on_config_changed stateNrfIncomplete)) = 1 ∧
      statusOf (on_config_changed stateNrfIncomplete) = some .active := by
  decide

/-- C2 (amended): the evaluation proceeds to render and apply only when
each dependency's `ipv4_address` field is available (present and
non-empty) in its relation data; if a dependency's IPv4 address is
unavailable, it stops with the Waiting status for that dependency and
performs no render, push or restart. -/
theorem render_gated_on_ipv4_availability (s : CharmState) (r : EventResult)
    (h : on_config_changed s = .ok r) :
    (r.actions ≠ [] →
      ipv4AvailSignal s.nrf_relation "nrf_ipv4_address" = true ∧
        ipv4AvailSignal s.udm_relation "udm_ipv4_address" = true) ∧
    (s.can_connect = true → s.nrf_relation.isSome = true → s.udm_relation.isSome = true →
      ipv4AvailSignal s.nrf_relation "nrf_ipv4_address" = false →
      r = ⟨.waiting "Waiting for NRF IPv4 address to be available in relation data",
        false, []⟩) ∧
    (s.can_connect = true → s.nrf_relation.isSome = true → s.udm_relation.isSome = true →
      ipv4AvailSignal s.nrf_relation "nrf_ipv4_address" = true →
      ipv4AvailSignal s.udm_relation "udm_ipv4_address" = false →
      r = ⟨.waiting "Waiting for UDM IPv4 address to be available in relation data",
        false, []⟩) := by
  rw [on_config_changed_characterization] at h
  cases hc : s.can_connect <;>
    cases hn : s.nrf_relation.isSome <;>
      cases hu : s.udm_relation.isSome <;>
        cases hs1 : ipv4AvailSignal s.nrf_relation "nrf_ipv4_address" <;>
          cases hs2 : ipv4AvailSignal s.udm_relation "udm_ipv4_address" <;>
            · simp only [hc, hn, hu, hs1, hs2, if_true, if_false, Bool.true_eq_false,
                Bool.false_eq_true, ite_true, ite_false, Except.ok.injEq] at h
              subst h
              simp [update_pebble_layer, hc, hn, hu, hs1, hs2]

/-- Witness for C2 at `stateNrfIncomplete`: the pass rendered, so both IPv4
availability signals were true. -/
theorem render_gated_on_ipv4_availability_witness :
    ipv4AvailSignal stateNrfIncomplete.nrf_relation "nrf_ipv4_address" = true ∧
      ipv4AvailSignal stateNrfIncomplete.udm_relation "udm_ipv4_address" = true :=
  (render_gated_on_ipv4_availability stateNrfIncomplete
      ⟨.active, false, Action.pushConfig (renderedBindings stateNrfIncomplete)
        :: update_pebble_layer⟩
      (by rfl)).1 (by decide)

/-- C7: the reconciliation evaluation never raises on expected-incomplete
states, and of its failure branches only the pebble-unreachable branch
defers the trigger; every deferring outcome also performs no container
action. -/
theorem config_changed_defer_only_unreachable (s : CharmState) :
    ∃ r, on_config_changed s = .ok r ∧ r.deferred = !s.can_connect := by
  rw [on_config_changed_characterization]
  cases hc : s.can_connect <;>
    cases hn : s.nrf_relation.isSome <;>
      cases hu : s.udm_relation.isSome <;>
        cases hs1 : ipv4AvailSignal s.nrf_relation "nrf_ipv4_address" <;>
          cases hs2 : ipv4AvailSignal s.udm_relation "udm_ipv4_address" <;>
            simp [hc, hn, hu, hs1, hs2]

/-- C8: when every readiness check passes, one reconciliation pass pushes
the configuration rendered from the local config plus both dependency
facts, updates the pebble layer, ends Active, and restarts the managed
service exactly once. -/
theorem reconcile_success_renders_and_restarts_once (s : CharmState)
    (h1 : s.can_connect = true) (h2 : s.nrf_relation.isSome = true)
    (h3 : s.udm_relation.isSome = true)
    (h4 : ipv4AvailSignal s.nrf_relation "nrf_ipv4_address" = true)
    (h5 : ipv4AvailSignal s.udm_relation "udm_ipv4_address" = true) :
    on_config_changed s = .ok ⟨.active, false,
      [Action.pushConfig (renderedBindings s), Action.addLayer, Action.replan,
        Action.restart "ausf"]⟩ ∧
    restartCount [Action.pushConfig (renderedBindings s), Action.addLayer, Action.replan,
      Action.restart "ausf"] = 1 := by
  constructor
  · rw [on_config_changed_characterization]
    simp [h1, h2, h3, h4, h5, update_pebble_layer]
  · rfl

/-- Witness for C8 at `stateAllReady`. -/
theorem reconcile_success_renders_and_restarts_once_witness :
    on_config_changed stateAllReady = .ok ⟨.active, false,
      [Action.pushConfig (renderedBindings stateAllReady), Action.addLayer, Action.replan,
        Action.restart "ausf"]⟩ ∧
    restartCount [Action.pushConfig (renderedBindings stateAllReady), Action.addLayer,
      Action.replan, Action.restart "ausf"] = 1 :=
  reconcile_success_renders_and_restarts_once stateAllReady rfl rfl rfl
    (by decide) (by decide)

/-- C5: on a `fiveg-ausf` relation-joined trigger on the leader unit, a
not-running service (container unreachable, service not found, or service
not running) defers the event and leaves the provider state untouched (zero
relation-data writes); a running service yields exactly one publish of the
local fact — loopback address, `<app>.<model>.svc.cluster.local`, the
configured port `"80"` and API version `"v1"` — to the joining relation
instance, and every other relation instance's data is unchanged. -/
theorem relation_joined_leader_behavior (s : JoinedState) (h : s.is_leader = true) :
    (ausf_service_started s = false →
      on_fiveg_ausf_relation_joined s = .ok ⟨true, s.provider, none⟩) ∧
    (∀ d, ausf_service_started s = true →
      getRelationById s.provider s.event_relation_id = some d →
      ∃ m', on_fiveg_ausf_relation_joined s
          = .ok ⟨false, m', some (s.event_relation_id, localAusfFact s)⟩ ∧
        localAusfFact s = ⟨"127.0.0.1",
          s.app_name ++ "." ++ s.model_name ++ ".svc.cluster.local", "80", "v1"⟩ ∧
        ∀ rid', rid' ≠ s.event_relation_id →
          getRelationById m' rid' = getRelationById s.provider rid') := by
  constructor
  · intro hs
    simp [on_fiveg_ausf_relation_joined, h, hs]
  · intro d hs hrel
    obtain ⟨b, hb⟩ := ausf_data_is_set_ok s.provider s.event_relation_id d (localAusfFact s) hrel
    cases b with
    | true =>
      refine ⟨s.provider, ?_, rfl, fun rid' _ => rfl⟩
      simp [on_fiveg_ausf_relation_joined, h, hs, set_ausf_information, hrel, hb]
    | false =>
      refine ⟨setRelationData s.provider s.event_relation_id
        (dataUpdate d (ausfFactPairs (localAusfFact s))), ?_, rfl, ?_⟩
      · simp [on_fiveg_ausf_relation_joined, h, hs, set_ausf_information, hrel, hb]
      · intro rid' hne
        exact getRelationById_setRelationData_other _ _ _ _ (Ne.symm hne)

/-- Witness for C5: with the service not running the event is deferred and
nothing is written; with it running the local fact is published to the one
joining relation. -/
theorem relation_joined_leader_behavior_witness :
    on_fiveg_ausf_relation_joined ⟨true, true, some false, "oai-5g-ausf", "mdl", ⟨[(3, [])]⟩, 3⟩
        = .ok ⟨true, ⟨[(3, [])]⟩, none⟩ ∧
      ∃ m', on_fiveg_ausf_relation_joined
          ⟨true, true, some true, "oai-5g-ausf", "mdl", ⟨[(3, [])]⟩, 3⟩
        = .ok ⟨false, m',
            some (3, localAusfFact ⟨true, true, some true, "oai-5g-ausf", "mdl", ⟨[(3, [])]⟩, 3⟩)⟩ :=
  ⟨(relation_joined_leader_behavior
        ⟨true, true, some false, "oai-5g-ausf", "mdl", ⟨[(3, [])]⟩, 3⟩ rfl).1 rfl,
    by
      obtain ⟨m', hm, -, -⟩ := (relation_joined_leader_behavior
        ⟨true, true, some true, "oai-5g-ausf", "mdl", ⟨[(3, [])]⟩, 3⟩ rfl).2 [] rfl (by decide)
      exact ⟨m', hm⟩⟩

end AusfOperator
